import Mathlib

/-!
Shallow embedding of spacenav-plus (src/lib.rs): a reference-counted
manager of a single shared libspnav driver connection, plus a decoder
from raw discriminant-tagged records to a typed event model.

The libspnav FFI boundary is modelled as explicit oracle parameters:
each embedded function takes the outcomes of the driver calls it makes
(open success, the raw spnav_fd return, the delivered-flag and the
buffer contents after a wait/poll call) and records which driver
primitives it invoked in a trace.

Machine integers: the i32 and u32 fields are carried as Int and Nat
(decoding only copies them, so no wrap occurs); the process-wide usize
counter wraps modulo 2 ^ 64 where the code can overflow it, matching
release-profile Rust semantics.
-/

namespace Spacenav

/-- Discriminant code SPNAV_EVENT_ANY from the source. -/
def SPNAV_EVENT_ANY : Int := 0

/-- Discriminant code SPNAV_EVENT_MOTION from the source. -/
def SPNAV_EVENT_MOTION : Int := 1

/-- Discriminant code SPNAV_EVENT_BUTTON from the source. -/
def SPNAV_EVENT_BUTTON : Int := 2

/-- Raw motion payload (libspnav spnav_event_motion): six i32 spatial
fields and a u32 period. -/
structure spnav_event_motion where
  x : Int
  y : Int
  z : Int
  rx : Int
  ry : Int
  rz : Int
  period : Nat
deriving DecidableEq, Repr

/-- Raw button payload (libspnav spnav_event_button): i32 press flag and
i32 button number. -/
structure spnav_event_button where
  press : Int
  bnum : Int
deriving DecidableEq, Repr

/-- Raw event record. In the C ABI this is a union tagged by type_; the
embedding carries both payloads, and the decoder reads a payload only
under its matching discriminant. -/
structure spnav_event where
  type_ : Int
  motion : spnav_event_motion
  button : spnav_event_button
deriving DecidableEq, Repr

/-- Decoded motion event (struct MotionEvent in the source). -/
structure MotionEvent where
  x : Int
  y : Int
  z : Int
  rx : Int
  ry : Int
  rz : Int
  period : Nat
deriving DecidableEq, Repr

/-- MotionEvent::t, the grouped translation triple. -/
def MotionEvent.t (e : MotionEvent) : Int × Int × Int :=
  (e.x, e.y, e.z)

/-- MotionEvent::r, the grouped rotation triple. -/
def MotionEvent.r (e : MotionEvent) : Int × Int × Int :=
  (e.rx, e.ry, e.rz)

/-- From spnav_event_motion for MotionEvent: field-by-field copy. -/
def motionEventFrom (event : spnav_event_motion) : MotionEvent :=
  { x := event.x
    y := event.y
    z := event.z
    rx := event.rx
    ry := event.ry
    rz := event.rz
    period := event.period }

/-- Decoded button event (struct ButtonEvent in the source). -/
structure ButtonEvent where
  press : Bool
  bnum : Int
deriving DecidableEq, Repr

/-- From spnav_event_button for ButtonEvent: press becomes the boolean
test press != 0, bnum is copied. -/
def buttonEventFrom (event : spnav_event_button) : ButtonEvent :=
  { press := event.press != 0
    bnum := event.bnum }

/-- Decoded event: tagged variant over motion and button (enum Event). -/
inductive Event where
  | Motion : MotionEvent → Event
  | Button : ButtonEvent → Event
deriving DecidableEq, Repr

/-- TryFrom spnav_event for Event: match on the discriminant; the motion
and button discriminants decode to the corresponding variant, every
other discriminant is the unit error. -/
def tryFromEvent (event : spnav_event) : Except Unit Event :=
  if event.type_ = SPNAV_EVENT_MOTION then
    .ok (.Motion (motionEventFrom event.motion))
  else if event.type_ = SPNAV_EVENT_BUTTON then
    .ok (.Button (buttonEventFrom event.button))
  else
    .error ()

/-- struct Connection: wraps the driver descriptor. -/
structure Connection where
  fd : Int
deriving DecidableEq, Repr

/-- Driver primitives that mutate or query the process-wide connection,
as recorded in call traces. -/
inductive DriverCall where
  | dopen : DriverCall
  | dclose : DriverCall
  | dfd : DriverCall
deriving DecidableEq, Repr

/-- Modulus of the usize reference counter. -/
def USIZE : Nat := 2 ^ 64

/-- Process-wide shared state: whether the CONN_COUNT OnceLock has been
populated, the usize counter inside its mutex, and whether the driver
connection is currently open on the driver side. -/
structure SpnavState where
  inited : Bool
  count : Nat
  driverOpen : Bool
deriving DecidableEq, Repr

instance : DecidableEq (Except Unit Connection) := fun a b =>
  match a, b with
  | .ok x, .ok y => if h : x = y then .isTrue (by rw [h]) else .isFalse (by simp [h])
  | .error x, .error y => .isTrue (by rw [Unit.ext x y])
  | .ok _, .error _ => .isFalse (by simp)
  | .error _, .ok _ => .isFalse (by simp)

/-- Result of Connection::new: the returned value, the state after, and
the trace of driver calls made. -/
structure NewResult where
  result : Except Unit Connection
  state : SpnavState
  calls : List DriverCall
deriving DecidableEq, Repr

/-- Connection::new. get_or_init lazily creates the counter at 0; under
the lock, if the count is positive it is incremented and only spnav_fd
is called; otherwise the count is set to 1 BEFORE spnav_open is
attempted (the source order), and on open success spnav_fd is queried.
openOk is the driver open outcome; fdRet is the raw spnav_fd return
(sentinel -1 means failure). -/
def connection_new (s : SpnavState) (openOk : Bool) (fdRet : Int) : NewResult :=
  let c0 : Nat := if s.inited then s.count else 0
  let s1 : SpnavState := { inited := true, count := c0, driverOpen := s.driverOpen }
  if c0 > 0 then
    let s2 : SpnavState := { s1 with count := (c0 + 1) % USIZE }
    if fdRet = -1 then
      ⟨.error (), s2, [.dfd]⟩
    else
      ⟨.ok ⟨fdRet⟩, s2, [.dfd]⟩
  else
    let s2 : SpnavState := { s1 with count := 1 }
    if openOk then
      let s3 : SpnavState := { s2 with driverOpen := true }
      if fdRet = -1 then
        ⟨.error (), s3, [.dopen, .dfd]⟩
      else
        ⟨.ok ⟨fdRet⟩, s3, [.dopen, .dfd]⟩
    else
      ⟨.error (), s2, [.dopen]⟩

/-- Result of Drop for Connection: the state after, the trace of driver
calls, and whether the drop panicked (the expect on a failed close). -/
structure DropResult where
  state : SpnavState
  calls : List DriverCall
  panicked : Bool
deriving DecidableEq, Repr

/-- Drop for Connection. If CONN_COUNT was never populated nothing
happens; otherwise, under the lock, a count of exactly 1 is zeroed and
spnav_close is called (its failure panics via expect, after the counter
was already zeroed); any other count is decremented, with usize
wrap-around at 0. closeOk is the driver close outcome. -/
def connection_drop (s : SpnavState) (closeOk : Bool) : DropResult :=
  if s.inited then
    if s.count = 1 then
      ⟨{ s with count := 0, driverOpen := false }, [.dclose], !closeOk⟩
    else
      ⟨{ s with count := (s.count + USIZE - 1) % USIZE }, [], false⟩
  else
    ⟨s, [], false⟩

/-- lib::spnav_wait_event. The stack buffer is initialized with
discriminant SPNAV_EVENT_ANY; m and b stand for its uninitialized
payload bytes. dr models the driver call: it receives the buffer and
returns the delivered-flag together with the buffer contents after the
call. Flag 0 is the unit error; otherwise the buffer is decoded. -/
def spnav_wait_event (m : spnav_event_motion) (b : spnav_event_button)
    (dr : spnav_event → Int × spnav_event) : Except Unit Event :=
  let event : spnav_event := { type_ := SPNAV_EVENT_ANY, motion := m, button := b }
  let r := dr event
  if r.1 = 0 then .error () else tryFromEvent r.2

/-- lib::spnav_poll_event. Same shape as spnav_wait_event, but flag 0
yields none and a decode failure is discarded by .ok(). -/
def spnav_poll_event (m : spnav_event_motion) (b : spnav_event_button)
    (dr : spnav_event → Int × spnav_event) : Option Event :=
  let event : spnav_event := { type_ := SPNAV_EVENT_ANY, motion := m, button := b }
  let r := dr event
  if r.1 = 0 then none
  else
    match tryFromEvent r.2 with
    | .ok ev => some ev
    | .error _ => none

/-- Connection::poll delegates to lib::spnav_poll_event. -/
def Connection.poll (_c : Connection) (m : spnav_event_motion)
    (b : spnav_event_button) (dr : spnav_event → Int × spnav_event) : Option Event :=
  spnav_poll_event m b dr

/-- Connection::wait delegates to lib::spnav_wait_event. -/
def Connection.wait (_c : Connection) (m : spnav_event_motion)
    (b : spnav_event_button) (dr : spnav_event → Int × spnav_event) : Except Unit Event :=
  spnav_wait_event m b dr

/-- C1: the claimed invariant (count positive implies the driver
connection is open) is broken by the code at the 0 to 1 transition when
the driver open fails: Connection::new sets the counter to 1 before
calling spnav_open, so a failed open leaves count = 1 with the driver
connection still closed. -/
theorem new_open_failure_breaks_open_invariant :
    (connection_new ⟨false, 0, false⟩ false 3).state.count > 0 ∧
    (connection_new ⟨false, 0, false⟩ false 3).state.driverOpen = false ∧
    (connection_new ⟨false, 0, false⟩ false 3).calls = [.dopen] := by
  decide

/-- C2: a failing acquisition does return no Connection, but it does NOT
leave the reference count unchanged: from count 0 with the driver open
failing, Connection::new returns the error with the count left at 1,
not 0. -/
theorem new_open_failure_result :
    connection_new ⟨false, 0, false⟩ false 3 =
      ⟨.error (), ⟨true, 1, false⟩, [.dopen]⟩ ∧
    (connection_new ⟨false, 0, false⟩ false 3).state.count ≠ 0 := by
  decide

/-- C3: decoding is total on the discriminant domain: the motion
discriminant always yields a Motion variant copying the seven raw
fields, the button discriminant always yields a Button variant whose
press flag is the boolean test press not equal to 0 and whose bnum is
the raw index, and any other discriminant yields the error. -/
theorem decode_total (e : spnav_event) :
    (e.type_ = SPNAV_EVENT_MOTION →
      tryFromEvent e = .ok (.Motion ⟨e.motion.x, e.motion.y, e.motion.z,
        e.motion.rx, e.motion.ry, e.motion.rz, e.motion.period⟩)) ∧
    (e.type_ = SPNAV_EVENT_BUTTON →
      tryFromEvent e = .ok (.Button ⟨e.button.press != 0, e.button.bnum⟩)) ∧
    ((e.button.press != 0) = true ↔ e.button.press ≠ 0) ∧
    (e.type_ ≠ SPNAV_EVENT_MOTION → e.type_ ≠ SPNAV_EVENT_BUTTON →
      tryFromEvent e = .error ()) := by
  refine ⟨?_, ?_, ?_, ?_⟩
  · intro h
    simp [tryFromEvent, h, motionEventFrom]
  · intro h
    simp [tryFromEvent, h, SPNAV_EVENT_MOTION, SPNAV_EVENT_BUTTON, buttonEventFrom]
  · simp [bne_iff_ne]
  · intro h1 h2
    simp [tryFromEvent, h1, h2]

/-- C3 witness: the motion conjunct of decode_total at a concrete raw
record. -/
theorem decode_total_witness :
    tryFromEvent ⟨SPNAV_EVENT_MOTION, ⟨1, 2, 3, 4, 5, 6, 7⟩, ⟨0, 9⟩⟩ =
      .ok (.Motion ⟨1, 2, 3, 4, 5, 6, 7⟩) :=
  (decode_total ⟨SPNAV_EVENT_MOTION, ⟨1, 2, 3, 4, 5, 6, 7⟩, ⟨0, 9⟩⟩).1 rfl

/-- C4 counterexample: the abnormal-termination outcome (delivered-flag
zero) and the unrecognized-discriminant outcome (flag nonzero, unknown
discriminant 3) are NOT reported distinctly by wait: both are the very
same unit error value. -/
theorem wait_error_outcomes_not_distinct :
    spnav_wait_event ⟨0, 0, 0, 0, 0, 0, 0⟩ ⟨0, 0⟩ (fun e => (0, e)) = .error () ∧
    spnav_wait_event ⟨0, 0, 0, 0, 0, 0, 0⟩ ⟨0, 0⟩
      (fun e => (1, { e with type_ := 3 })) = .error () ∧
    spnav_wait_event ⟨0, 0, 0, 0, 0, 0, 0⟩ ⟨0, 0⟩ (fun e => (0, e)) =
      spnav_wait_event ⟨0, 0, 0, 0, 0, 0, 0⟩ ⟨0, 0⟩
        (fun e => (1, { e with type_ := 3 })) :=
  ⟨rfl, rfl, rfl⟩

/-- C4 (amended): Connection::wait returns exactly one outcome per call,
with no retry: the decoded event when the driver delivers a recognized
record, and otherwise an error; both the flag-zero case and the
unrecognized-discriminant case produce the same unit error. -/
theorem wait_outcomes (c : Connection) (m : spnav_event_motion)
    (b : spnav_event_button) (dr : spnav_event → Int × spnav_event)
    (t : Int) (e' : spnav_event)
    (h : dr { type_ := SPNAV_EVENT_ANY, motion := m, button := b } = (t, e')) :
    (t = 0 → c.wait m b dr = .error ()) ∧
    (t ≠ 0 → e'.type_ ≠ SPNAV_EVENT_MOTION → e'.type_ ≠ SPNAV_EVENT_BUTTON →
      c.wait m b dr = .error ()) ∧
    (t ≠ 0 → e'.type_ = SPNAV_EVENT_MOTION →
      c.wait m b dr = .ok (.Motion (motionEventFrom e'.motion))) ∧
    (t ≠ 0 → e'.type_ = SPNAV_EVENT_BUTTON →
      c.wait m b dr = .ok (.Button (buttonEventFrom e'.button))) := by
  refine ⟨?_, ?_, ?_, ?_⟩
  · intro h0
    simp [Connection.wait, spnav_wait_event, h, h0]
  · intro h0 h1 h2
    simp [Connection.wait, spnav_wait_event, h, h0, tryFromEvent, h1, h2]
  · intro h0 h1
    simp [Connection.wait, spnav_wait_event, h, h0, tryFromEvent, h1]
  · intro h0 h1
    simp [Connection.wait, spnav_wait_event, h, h0, tryFromEvent, h1,
      SPNAV_EVENT_MOTION, SPNAV_EVENT_BUTTON]

/-- C4 witness: wait_outcomes applied to a driver that delivers a motion
record. -/
theorem wait_outcomes_witness :
    Connection.wait ⟨5⟩ ⟨0, 0, 0, 0, 0, 0, 0⟩ ⟨0, 0⟩
      (fun e => (1, { e with type_ := 1 })) =
      .ok (.Motion (motionEventFrom ⟨0, 0, 0, 0, 0, 0, 0⟩)) :=
  (wait_outcomes ⟨5⟩ ⟨0, 0, 0, 0, 0, 0, 0⟩ ⟨0, 0⟩
    (fun e => (1, { e with type_ := 1 })) 1
    { type_ := 1, motion := ⟨0, 0, 0, 0, 0, 0, 0⟩, button := ⟨0, 0⟩ }
    rfl).2.2.1 (by decide) rfl

/-- C5: Connection::poll never returns an error by type, returns none
both when the delivered-flag is zero and when the delivered record has
an unrecognized discriminant, and returns some event exactly when a
record with a recognized discriminant was delivered. -/
theorem poll_outcomes (c : Connection) (m : spnav_event_motion)
    (b : spnav_event_button) (dr : spnav_event → Int × spnav_event)
    (t : Int) (e' : spnav_event)
    (h : dr { type_ := SPNAV_EVENT_ANY, motion := m, button := b } = (t, e')) :
    (t = 0 → c.poll m b dr = none) ∧
    (t ≠ 0 → e'.type_ ≠ SPNAV_EVENT_MOTION → e'.type_ ≠ SPNAV_EVENT_BUTTON →
      c.poll m b dr = none) ∧
    (t ≠ 0 → e'.type_ = SPNAV_EVENT_MOTION →
      c.poll m b dr = some (.Motion (motionEventFrom e'.motion))) ∧
    (t ≠ 0 → e'.type_ = SPNAV_EVENT_BUTTON →
      c.poll m b dr = some (.Button (buttonEventFrom e'.button))) := by
  refine ⟨?_, ?_, ?_, ?_⟩
  · intro h0
    simp [Connection.poll, spnav_poll_event, h, h0]
  · intro h0 h1 h2
    simp [Connection.poll, spnav_poll_event, h, h0, tryFromEvent, h1, h2]
  · intro h0 h1
    simp [Connection.poll, spnav_poll_event, h, h0, tryFromEvent, h1]
  · intro h0 h1
    simp [Connection.poll, spnav_poll_event, h, h0, tryFromEvent, h1,
      SPNAV_EVENT_MOTION, SPNAV_EVENT_BUTTON]

/-- C5 witness: poll_outcomes applied to a driver with nothing queued. -/
theorem poll_outcomes_witness :
    Connection.poll ⟨5⟩ ⟨0, 0, 0, 0, 0, 0, 0⟩ ⟨0, 0⟩ (fun e => (0, e)) = none :=
  (poll_outcomes ⟨5⟩ ⟨0, 0, 0, 0, 0, 0, 0⟩ ⟨0, 0⟩ (fun e => (0, e)) 0
    { type_ := 0, motion := ⟨0, 0, 0, 0, 0, 0, 0⟩, button := ⟨0, 0⟩ }
    rfl).1 rfl

/-- C6 counterexample: dropping a Connection while the count is already
zero does not clamp the count at zero: the usize decrement wraps, so
the count becomes 2 ^ 64 - 1 (the close primitive is indeed not
called). -/
theorem drop_at_zero_not_clamped :
    (connection_drop ⟨true, 0, false⟩ true).state.count = USIZE - 1 ∧
    (connection_drop ⟨true, 0, false⟩ true).state.count ≠ 0 ∧
    (connection_drop ⟨true, 0, false⟩ true).calls = [] := by
  refine ⟨?_, ?_, ?_⟩
  · norm_num [connection_drop, USIZE]
  · norm_num [connection_drop, USIZE]
  · norm_num [connection_drop]

/-- C6 (amended): dropping a Connection when the count is already zero
never invokes the driver close operation, but the count is not clamped
at zero: the usize decrement wraps the counter around to 2 ^ 64 - 1. -/
theorem drop_at_zero_wraps (s : SpnavState) (closeOk : Bool)
    (h1 : s.inited = true) (h2 : s.count = 0) :
    (connection_drop s closeOk).calls = [] ∧
    (connection_drop s closeOk).state.count = USIZE - 1 ∧
    (connection_drop s closeOk).panicked = false := by
  refine ⟨?_, ?_, ?_⟩
  · norm_num [connection_drop, h1, h2]
  · norm_num [connection_drop, h1, h2, USIZE]
  · norm_num [connection_drop, h1, h2]

/-- C6 witness: drop_at_zero_wraps at the concrete over-released
state. -/
theorem drop_at_zero_wraps_witness :
    (connection_drop ⟨true, 0, true⟩ false).calls = [] ∧
    (connection_drop ⟨true, 0, true⟩ false).state.count = USIZE - 1 ∧
    (connection_drop ⟨true, 0, true⟩ false).panicked = false :=
  drop_at_zero_wraps ⟨true, 0, true⟩ false rfl rfl

/-- C7: releasing the last Connection (count 1) zeroes the counter and
calls close exactly once, and the counter is zeroed regardless of the
close outcome: even a failing close (which panics via expect) happens
only after the counter was already set to zero. -/
theorem drop_last_zeroes_count (s : SpnavState) (closeOk : Bool)
    (h1 : s.inited = true) (h2 : s.count = 1) :
    (connection_drop s closeOk).state.count = 0 ∧
    (connection_drop s closeOk).calls = [.dclose] ∧
    (connection_drop s closeOk).panicked = (!closeOk) := by
  refine ⟨?_, ?_, ?_⟩ <;> simp [connection_drop, h1, h2]

/-- C7 witness: drop_last_zeroes_count with a failing close. -/
theorem drop_last_zeroes_count_witness :
    (connection_drop ⟨true, 1, true⟩ false).state.count = 0 ∧
    (connection_drop ⟨true, 1, true⟩ false).calls = [.dclose] ∧
    (connection_drop ⟨true, 1, true⟩ false).panicked = (!false) :=
  drop_last_zeroes_count ⟨true, 1, true⟩ false rfl rfl

/-- C8: acquiring while the count is positive performs only the
descriptor query (never open, never close), and whenever that query
succeeds (raw return not the -1 sentinel) the returned Connection wraps
exactly the queried descriptor. -/
theorem new_attach_no_open (s : SpnavState) (openOk : Bool) (fdRet : Int)
    (h1 : s.inited = true) (h2 : s.count > 0) :
    (connection_new s openOk fdRet).calls = [.dfd] ∧
    DriverCall.dopen ∉ (connection_new s openOk fdRet).calls ∧
    DriverCall.dclose ∉ (connection_new s openOk fdRet).calls ∧
    (fdRet ≠ -1 → (connection_new s openOk fdRet).result = .ok ⟨fdRet⟩) := by
  by_cases hf : fdRet = -1 <;>
    simp [connection_new, h1, h2, hf, Nat.pos_iff_ne_zero]

/-- C8 witness: new_attach_no_open with the count at 1 and a failing
driver open oracle, showing open is not consulted. -/
theorem new_attach_no_open_witness :
    (connection_new ⟨true, 1, true⟩ false 7).calls = [.dfd] ∧
    DriverCall.dopen ∉ (connection_new ⟨true, 1, true⟩ false 7).calls ∧
    DriverCall.dclose ∉ (connection_new ⟨true, 1, true⟩ false 7).calls ∧
    ((7 : Int) ≠ -1 → (connection_new ⟨true, 1, true⟩ false 7).result = .ok ⟨7⟩) :=
  new_attach_no_open ⟨true, 1, true⟩ false 7 rfl (by decide)

/-- C9: a raw motion record with x=1, y=-2, z=3, rx=0, ry=5, rz=-5,
period=16 decodes to the Motion variant whose grouped translation is
(1,-2,3), whose grouped rotation is (0,5,-5), and whose period is 16. -/
theorem motion_roundtrip :
    tryFromEvent ⟨SPNAV_EVENT_MOTION, ⟨1, -2, 3, 0, 5, -5, 16⟩, ⟨0, 0⟩⟩ =
      .ok (.Motion ⟨1, -2, 3, 0, 5, -5, 16⟩) ∧
    MotionEvent.t ⟨1, -2, 3, 0, 5, -5, 16⟩ = (1, -2, 3) ∧
    MotionEvent.r ⟨1, -2, 3, 0, 5, -5, 16⟩ = (0, 5, -5) ∧
    MotionEvent.period ⟨1, -2, 3, 0, 5, -5, 16⟩ = 16 :=
  ⟨rfl, rfl, rfl, rfl⟩

/-- C10: both wait and poll hand the driver a buffer whose discriminant
is initialized to SPNAV_EVENT_ANY, which matches neither the motion nor
the button discriminant; hence a driver call that signals delivery but
leaves the discriminant unwritten decodes to nothing: wait returns the
error and poll returns none. -/
theorem any_discriminant_never_decodes (m : spnav_event_motion)
    (b : spnav_event_button) (dr : spnav_event → Int × spnav_event)
    (t : Int) (e' : spnav_event)
    (h : dr { type_ := SPNAV_EVENT_ANY, motion := m, button := b } = (t, e'))
    (ht : t ≠ 0) (he : e'.type_ = SPNAV_EVENT_ANY) :
    SPNAV_EVENT_ANY ≠ SPNAV_EVENT_MOTION ∧
    SPNAV_EVENT_ANY ≠ SPNAV_EVENT_BUTTON ∧
    spnav_wait_event m b dr = .error () ∧
    spnav_poll_event m b dr = none := by
  refine ⟨by decide, by decide, ?_, ?_⟩
  · simp only [SPNAV_EVENT_ANY] at h he
    simp [spnav_wait_event, SPNAV_EVENT_ANY, h, ht, tryFromEvent, he,
      SPNAV_EVENT_MOTION, SPNAV_EVENT_BUTTON]
  · simp only [SPNAV_EVENT_ANY] at h he
    simp [spnav_poll_event, SPNAV_EVENT_ANY, h, ht, tryFromEvent, he,
      SPNAV_EVENT_MOTION, SPNAV_EVENT_BUTTON]

/-- C10 witness: any_discriminant_never_decodes for a driver that
signals delivery without touching the buffer. -/
theorem any_discriminant_never_decodes_witness :
    SPNAV_EVENT_ANY ≠ SPNAV_EVENT_MOTION ∧
    SPNAV_EVENT_ANY ≠ SPNAV_EVENT_BUTTON ∧
    spnav_wait_event ⟨0, 0, 0, 0, 0, 0, 0⟩ ⟨0, 0⟩ (fun e => (1, e)) = .error () ∧
    spnav_poll_event ⟨0, 0, 0, 0, 0, 0, 0⟩ ⟨0, 0⟩ (fun e => (1, e)) = none :=
  any_discriminant_never_decodes ⟨0, 0, 0, 0, 0, 0, 0⟩ ⟨0, 0⟩ (fun e => (1, e)) 1
    { type_ := SPNAV_EVENT_ANY, motion := ⟨0, 0, 0, 0, 0, 0, 0⟩, button := ⟨0, 0⟩ }
    rfl (by decide) rfl

end Spacenav
